import Mathlib

/-!
# Verification of the takahe federation core (neodb)

A shallow embedding of `takahe/models.py` and `takahe/utils.py`.  The stored
record sets (Django model tables) are embedded as lists of structures; each
Django queryset operation is translated to the corresponding list operation,
keeping Django's evaluation semantics: `get` raises `DoesNotExist` on zero
matches and `MultipleObjectsReturned` on several, `first()` takes the first
match in the list, `filter(field=None)` matches null values, `get_or_create`
and `update_or_create` fetch before writing.  Operations that can raise are
embedded in `Option`/`Except`; primary keys produced by the database or by
the snowflake generator are passed in explicitly as `fresh_pk` arguments.
-/

namespace NeodbTakahe

/-! ## Data model rows (from `takahe/models.py`) -/

/-- One row of the `users_domain` table (class `Domain`): the primary key
`domain` and the `local` flag (the only columns the verified operations
read). -/
structure DomainRow where
  domain : String
  is_local : Bool
deriving Repr, DecidableEq

/-- One row of the `users_identity` table (class `Identity`), restricted to
the columns the verified operations read: pk, `actor_uri` (unique),
`username`, the `domain` foreign key (nullable) and `local`. -/
structure IdentityRow where
  pk : Nat
  actor_uri : String
  username : String
  domain : Option String
  is_local : Bool
deriving Repr, DecidableEq

/-- One row of the `users_follow` table (class `Follow`): a directed edge
`source → target` with a `state` string, the `boosts` preference and the
`uri` assigned after creation. -/
structure FollowRow where
  pk : Nat
  source : Nat
  target : Nat
  boosts : Bool
  uri : String
  state : String
deriving Repr, DecidableEq

/-- One row of the `users_block` table (class `Block`): a directed edge with
the `mute` discriminator, a `state` string and a `uri`. -/
structure BlockRow where
  pk : Nat
  source : Nat
  target : Nat
  mute : Bool
  state : String
  uri : String
deriving Repr, DecidableEq

/-- One row of the `activities_post` table (class `Post`), restricted to the
columns the verified operations read: pk, author, `object_uri` (nullable),
`in_reply_to` (nullable URI string, not a foreign key) and the JSON `stats`
dict, embedded as an association list. -/
structure PostRow where
  pk : Nat
  author : Nat
  is_local : Bool
  object_uri : Option String
  in_reply_to : Option String
  stats : Option (List (String × Nat))
deriving Repr, DecidableEq

/-- One row of the `activities_postinteraction` table
(class `PostInteraction`): `(identity, post, type)` plus the `state`
string. -/
structure PostInteractionRow where
  pk : Nat
  type : String
  identity : Nat
  post : Nat
  state : String
deriving Repr, DecidableEq

/-- The persisted state the verified operations touch: one list per Django
table, in insertion order (Django's default iteration order used by
`first()` and `get`). -/
structure DB where
  domains : List DomainRow
  identities : List IdentityRow
  follows : List FollowRow
  blocks : List BlockRow
  posts : List PostRow
  interactions : List PostInteractionRow
deriving Repr, DecidableEq

/-- Update the first element satisfying `p` (what a Django
fetch-one-then-`save()` sequence writes back). -/
def updateFirst (p : α → Bool) (f : α → α) : List α → List α
  | [] => []
  | x :: xs => if p x then f x :: xs else x :: updateFirst p f xs

/-- Abbreviation used only to state intermediate store shapes compactly:
the store with its interaction table replaced. -/
def withInteractions (db : DB) (l : List PostInteractionRow) : DB :=
  { db with interactions := l }

/-- Python's `str.lower`, written over the character list so that concrete
instances evaluate by kernel reduction. -/
def pyLower (s : String) : String := String.mk (s.toList.map Char.toLower)

/-- Python's `str.split(sep)` for a one-character separator: split on every
occurrence, keeping empty parts. -/
def pySplit (s : String) (sep : Char) : List String :=
  (s.toList.splitOn sep).map (fun cs => String.mk cs)

/-- Python's `str.startswith("@")`. -/
def startsWithAt (s : String) : Bool :=
  match s.toList with
  | c :: _ => c == '@'
  | [] => false

/-! ## Snowflake (from `takahe/models.py`, class `Snowflake`) -/

namespace Snowflake

/-- `Snowflake.EPOCH`: 2022-01-01 midnight, in UNIX seconds. -/
def EPOCH : Nat := 1641020400

/-- `Snowflake.generate`: `(now << 22) | (rand_seq << 3) | type_id` where
`now` is the millisecond count since `EPOCH` (already truncated to an
integer, as `int((time.time() - cls.EPOCH) * 1000)` does) and `rand_seq` is
the value of `secrets.randbits(19)`.  Both are passed in explicitly since
they come from the clock and the RNG. -/
def generate (now rand_seq type_id : Nat) : Nat :=
  (now <<< 22) ||| (rand_seq <<< 3) ||| type_id

/-- `Snowflake.get_type`: raises `ValueError` for ids below `1 << 22`,
otherwise returns `snowflake & 0b111`. -/
def get_type (snowflake : Nat) : Except String Nat :=
  if snowflake < (1 <<< 22) then .error "Not a valid Snowflake ID"
  else .ok (snowflake &&& 0b111)

/-- `Snowflake.get_time`, modelled at millisecond precision: the source
computes `((snowflake >> 22) / 1000) + cls.EPOCH` (float seconds); we return
the recovered millisecond count since `EPOCH`, i.e. `snowflake >> 22`, with
the same `ValueError` guard. -/
def get_time_ms (snowflake : Nat) : Except String Nat :=
  if snowflake < (1 <<< 22) then .error "Not a valid Snowflake ID"
  else .ok (snowflake >>> 22)

end Snowflake

/-! ## Webfinger resolution (from `Identity.fetch_webfinger`) -/

/-- One entry of the webfinger `links` array; each key may be absent
(`link.get("type")`, `link.get("rel")` return `None`, `link["href"]` raises
`KeyError`). -/
structure WebfingerLink where
  rel : Option String
  type : Option String
  href : Option String
deriving Repr, DecidableEq

/-- The body of a 2xx webfinger response: either not JSON at all, or a JSON
object whose `subject` / `links` keys may each be missing. -/
inductive WebfingerBody
  | invalidJson (raw : String)
  | json (subject : Option String) (links : Option (List WebfingerLink))
deriving Repr, DecidableEq

/-- Outcome of the network part of a webfinger resolution, the input to the
error-dispatch logic of `Identity.fetch_webfinger`:
* `hostMetaCertError` — `ssl.SSLCertVerificationError` raised while probing
  host-meta in `fetch_webfinger_url`;
* `requestFailure` — the webfinger GET raised an `httpx` error carrying no
  response (timeout, connection failure, TLS failure);
* `httpErrorStatus` — `raise_for_status()` raised, carrying the response
  (only statuses ≥ 400 raise);
* `success` — a 2xx response with its body. -/
inductive WebfingerOutcome
  | hostMetaCertError
  | requestFailure
  | httpErrorStatus (status : Nat) (body : String)
  | success (body : WebfingerBody)
deriving Repr, DecidableEq

/-- The two `ValueError`s `Identity.fetch_webfinger` can raise: the
client-error path (carrying status and body) and the JSON-parse path
(carrying the body). -/
inductive WebfingerFailure
  | clientError (status : Nat) (body : String)
  | jsonError (body : String)
deriving Repr, DecidableEq

/-- The statuses listed in `fetch_webfinger`'s
`response.status_code not in [400, 401, 403, 404, 406, 410]` check. -/
def toleratedStatuses : List Nat := [400, 401, 403, 404, 406, 410]

/-- The `for link in data["links"]` loop: the first link whose `type` is
`application/activity+json` and whose `rel` is `self` wins; its (possibly
missing) `href` is returned.  `none` means no link matched. -/
def findSelfLink : List WebfingerLink → Option (Option String)
  | [] => none
  | l :: ls =>
    if l.type == some "application/activity+json" && l.rel == some "self" then some l.href
    else findSelfLink ls

/-- Python's `b"not found" in response.content.lower()`. -/
def containsNotFound (raw : String) : Bool :=
  ((pyLower raw).splitOn "not found").length > 1

/-- `Identity.fetch_webfinger`: dispatch on the outcome of the webfinger
request.  Returns `(actor uri, canonical handle)`, `(None, None)` for a
not-found, or raises one of the two `ValueError`s (the `Except.error`
cases), exactly following the source's `try/except` structure. -/
def fetch_webfinger (outcome : WebfingerOutcome) :
    Except WebfingerFailure (Option String × Option String) :=
  match outcome with
  | .hostMetaCertError => .ok (none, none)
  | .requestFailure => .ok (none, none)
  | .httpErrorStatus status body =>
    if status < 500 && !(toleratedStatuses.contains status) then
      .error (.clientError status body)
    else .ok (none, none)
  | .success (.invalidJson raw) =>
    if containsNotFound raw then .ok (none, none)
    else .error (.jsonError raw)
  | .success (.json subject links) =>
    match subject with
    | none => .ok (none, none)
    | some subj =>
      let subj := if subj.startsWith "acct:" then subj.drop 5 else subj
      match links with
      | none => .ok (none, none)
      | some ls =>
        match findSelfLink ls with
        | some (some href) => .ok (some href, some subj)
        | some none => .ok (none, none)
        | none => .ok (none, none)

/-! ## Identity resolution (from `Identity.by_username_and_domain`) -/

/-- The `domain` argument of `by_username_and_domain` is either a plain
string or an already-fetched `Domain` instance. -/
inductive DomainArg
  | name (d : String)
  | record (d : DomainRow)
deriving Repr, DecidableEq

/-- `Domain.get_remote_domain`: `get_or_create(domain=domain.lower(),
local=False)`.  `none` models the `IntegrityError` raised when a local
domain already owns the primary key the create would use. -/
def get_remote_domain (db : DB) (domain : String) : Option (DB × DomainRow) :=
  match db.domains.find? (fun d => d.domain == pyLower domain && !d.is_local) with
  | some d => some (db, d)
  | none =>
    if db.domains.any (fun d => d.domain == pyLower domain) then none
    else
      let d : DomainRow := { domain := pyLower domain, is_local := false }
      some ({ db with domains := db.domains ++ [d] }, d)

/-- `Identity.by_username_and_domain`.  The webfinger call is abstracted by
`wf`, the `(actor uri, canonical handle)` pair `fetch_webfinger` returned
(`none` for the `(None, None)` not-found result); `fresh_pk` is the
snowflake the create would draw.  A `none` result models a raised exception
(the leading `ValueError`, `MultipleObjectsReturned` from `get`, the
unpacking error when the canonical handle does not split into exactly two
parts, or a create-time `IntegrityError`); `some (db', r)` is a normal
return of `r` with the store updated to `db'`. -/
def by_username_and_domain (db : DB) (username : String) (domainArg : DomainArg)
    (fetch is_local : Bool) (wf : Option (String × String)) (fresh_pk : Nat) :
    Option (DB × Option IdentityRow) :=
  if startsWithAt username then none
  else
    let domain_instance : Option DomainRow :=
      match domainArg with
      | .record d => some d
      | .name _ => none
    let is_local :=
      match domainArg with
      | .record d => d.is_local
      | .name _ => is_local
    let domain : String :=
      match domainArg with
      | .record d => d.domain
      | .name s => pyLower s
    match db.identities.filter (fun i =>
        pyLower i.username == pyLower username && i.domain == some domain &&
        (!is_local || i.is_local)) with
    | _ :: _ :: _ => none
    | [i] => some (db, some i)
    | [] =>
      if fetch && !is_local then
        match wf with
        | none => some (db, none)
        | some (actor_uri, handle) =>
          match db.identities.find? (fun i => i.actor_uri == actor_uri) with
          | some i => some (db, some i)
          | none =>
            match pySplit handle '@' with
            | [hu, hd] =>
              match (match domain_instance with
                     | some d => some (db, d)
                     | none => get_remote_domain db hd) with
              | none => none
              | some (db1, dInst) =>
                let newIdentity : IdentityRow :=
                  { pk := fresh_pk, actor_uri := actor_uri, username := hu,
                    domain := some dInst.domain, is_local := false }
                some ({ db1 with identities := db1.identities ++ [newIdentity] },
                      some newIdentity)
            | _ => none
      else some (db, none)

/-! ## Block.maybe_get (from `takahe/models.py`) -/

/-- The errors a Django queryset lookup can raise here: `FieldError` when a
filter keyword does not resolve to a model field, and
`MultipleObjectsReturned` from `get`. -/
inductive QueryError
  | fieldError (field : String)
  | multipleObjectsReturned
deriving Repr, DecidableEq

/-- The active block states listed in `Block.maybe_get`. -/
def blockActiveStates : List String := ["new", "sent", "awaiting_expiry"]

/-- `Block.objects.filter(<field>__in=vals)` for a string-valued field, with
Django's keyword resolution: `state` and `uri` are the Block model's
string columns; any other keyword fails to resolve and raises
`FieldError`.  (The Block model declares no field named `status`.) -/
def blockFilterIn (field : String) (vals : List String) (rows : List BlockRow) :
    Except QueryError (List BlockRow) :=
  if field == "state" then .ok (rows.filter (fun b => vals.contains b.state))
  else if field == "uri" then .ok (rows.filter (fun b => vals.contains b.uri))
  else .error (.fieldError field)

/-- `Block.maybe_get`: with `require_active` the source filters on
`status__in=[...]` before the `get`; without it, a plain `get` on
`(source, target, mute)`.  `DoesNotExist` is converted to `None`. -/
def maybe_get (db : DB) (source target : Nat) (mute require_active : Bool) :
    Except QueryError (Option BlockRow) :=
  if require_active then
    match blockFilterIn "status" blockActiveStates db.blocks with
    | .error e => .error e
    | .ok rows =>
      match rows.filter (fun b => b.source == source && b.target == target && b.mute == mute) with
      | [] => .ok none
      | [b] => .ok (some b)
      | _ => .error .multipleObjectsReturned
  else
    match db.blocks.filter (fun b => b.source == source && b.target == target && b.mute == mute) with
    | [] => .ok none
    | [b] => .ok (some b)
    | _ => .error .multipleObjectsReturned

/-! ## Facade operations (from `takahe/utils.py`, class `Takahe`) -/

namespace Takahe

/-- `Takahe.get_following_ids`: accepted Follow rows whose source is the
identity, `values_list("target", flat=True)`. -/
def get_following_ids (db : DB) (identity_pk : Nat) : List Nat :=
  (db.follows.filter (fun f => f.source == identity_pk && f.state == "accepted")).map
    (fun f => f.target)

/-- `Takahe.get_follower_ids`: the source filters accepted Follow rows whose
target is the identity and then — as written — returns
`values_list("target", flat=True)`. -/
def get_follower_ids (db : DB) (identity_pk : Nat) : List Nat :=
  (db.follows.filter (fun f => f.target == identity_pk && f.state == "accepted")).map
    (fun f => f.target)

/-- `Takahe.update_follow_state`: fetch the `(source, target)` Follow with
`first()`; if it exists, its state is in `from_states` (or `from_states` is
empty) and differs from `to_state`, write `to_state` back. -/
def update_follow_state (db : DB) (source_pk target_pk : Nat)
    (from_states : List String) (to_state : String) : DB :=
  match db.follows.find? (fun f => f.source == source_pk && f.target == target_pk) with
  | none => db
  | some follow =>
    if (from_states.isEmpty || from_states.contains follow.state) && follow.state != to_state then
      { db with
          follows := updateFirst (fun f => f.source == source_pk && f.target == target_pk)
            (fun f => { f with state := to_state }) db.follows }
    else db

/-- `Takahe.unfollow`: any-state transition to `undone`. -/
def unfollow (db : DB) (source_pk target_pk : Nat) : DB :=
  update_follow_state db source_pk target_pk [] "undone"

/-- `Takahe.reject_follow_request`: any-state transition to `rejecting`. -/
def reject_follow_request (db : DB) (source_pk target_pk : Nat) : DB :=
  update_follow_state db source_pk target_pk [] "rejecting"

/-- `Takahe.follow`: `get` the `(source, target)` Follow; if found and not
`accepted`, reset to `unrequested`; on `DoesNotExist`, fetch the source
identity and create the row (`boosts=True`, state `unrequested`) and stamp
its uri.  `none` models the uncaught exceptions (`MultipleObjectsReturned`,
`Identity.DoesNotExist`). -/
def follow (db : DB) (source_pk target_pk : Nat) (fresh_pk : Nat) : Option DB :=
  match db.follows.filter (fun f => f.source == source_pk && f.target == target_pk) with
  | [f] =>
    if f.state != "accepted" then
      some { db with
        follows := updateFirst (fun g => g.source == source_pk && g.target == target_pk)
          (fun g => { g with state := "unrequested" }) db.follows }
    else some db
  | [] =>
    match db.identities.find? (fun i => i.pk == source_pk) with
    | none => none
    | some source =>
      some { db with
        follows := db.follows ++ [{
          pk := fresh_pk, source := source_pk, target := target_pk,
          boosts := true,
          uri := source.actor_uri ++ "follow/" ++ toString fresh_pk ++ "/",
          state := "unrequested" }] }
  | _ => none

/-- `Takahe.block_or_mute`: fetch the source identity (raising on a remote
one), `update_or_create` the `(source, target, mute)` Block with default
state `new`, stamp its uri if empty, and for a full block tear the follow
relationship down in both directions inside the same transaction.  `none`
models the uncaught exceptions. -/
def block_or_mute (db : DB) (source_pk target_pk : Nat) (is_mute : Bool)
    (fresh_pk : Nat) : Option DB :=
  match db.identities.find? (fun i => i.pk == source_pk) with
  | none => none
  | some source =>
    if !source.is_local then none
    else
      match db.blocks.filter (fun b =>
          b.source == source_pk && b.target == target_pk && b.mute == is_mute) with
      | _ :: _ :: _ => none
      | found =>
        let block : BlockRow :=
          match found with
          | [b] => { b with state := "new" }
          | _ => { pk := fresh_pk, source := source_pk, target := target_pk,
                   mute := is_mute, state := "new", uri := "" }
        let block :=
          if block.uri == "" then
            { block with uri := source.actor_uri ++ "block/" ++ toString block.pk ++ "/" }
          else block
        let blocks' :=
          match found with
          | [_] => updateFirst (fun c =>
              c.source == source_pk && c.target == target_pk && c.mute == is_mute)
              (fun _ => block) db.blocks
          | _ => db.blocks ++ [block]
        let db1 := { db with blocks := blocks' }
        some (if is_mute then db1
              else reject_follow_request (unfollow db1 source_pk target_pk) target_pk source_pk)

end Takahe

/-! ## Post stats and interactions -/

/-- The non-terminal-negative interaction states `interact_post` and
`calculate_stats` test for (`["new", "fanned_out"]`). -/
def activeInteractionStates : List String := ["new", "fanned_out"]

/-- The value `Post.calculate_stats` computes for `post`: like and boost
interactions of the post in state `new` or `fanned_out`, and posts whose
`in_reply_to` equals the post's `object_uri`. -/
def calculated_stats (db : DB) (post : PostRow) : List (String × Nat) :=
  [("likes", (db.interactions.filter (fun i =>
      i.post == post.pk && i.type == "like" && activeInteractionStates.contains i.state)).length),
   ("boosts", (db.interactions.filter (fun i =>
      i.post == post.pk && i.type == "boost" && activeInteractionStates.contains i.state)).length),
   ("replies", (db.posts.filter (fun q => q.in_reply_to == post.object_uri)).length)]

/-- `Post.calculate_stats(save=True)` as a store operation on the post with
primary key `post_pk`: recompute the dict and save it on the row. -/
def calculate_stats (db : DB) (post_pk : Nat) : DB :=
  match db.posts.find? (fun p => p.pk == post_pk) with
  | none => db
  | some p =>
    { db with
        posts := updateFirst (fun q => q.pk == post_pk)
          (fun q => { q with stats := some (calculated_stats db p) }) db.posts }

namespace Takahe

/-- `Takahe.interact_post`: if the post is missing, log and return `None`;
otherwise `get_or_create` the `(type, identity, post)` interaction (created
rows get the model default state `new`), revive it to `new` when its state
is not active, then recompute the post's stats.  `none` models the uncaught
`MultipleObjectsReturned`; otherwise the new store and the returned
interaction (or `None`). -/
def interact_post (db : DB) (post_pk identity_pk : Nat) (type : String)
    (fresh_pk : Nat) : Option (DB × Option PostInteractionRow) :=
  match db.posts.find? (fun p => p.pk == post_pk) with
  | none => some (db, none)
  | some _ =>
    match db.interactions.filter (fun i =>
        i.type == type && i.identity == identity_pk && i.post == post_pk) with
    | _ :: _ :: _ => none
    | found =>
      let step1 : DB × PostInteractionRow :=
        match found with
        | [i] => (db, i)
        | _ =>
          let i : PostInteractionRow :=
            { pk := fresh_pk, type := type, identity := identity_pk,
              post := post_pk, state := "new" }
          ({ db with interactions := db.interactions ++ [i] }, i)
      let step2 : DB × PostInteractionRow :=
        if activeInteractionStates.contains step1.2.state then step1
        else
          ({ step1.1 with
              interactions := updateFirst (fun i =>
                  i.type == type && i.identity == identity_pk && i.post == post_pk)
                (fun i => { i with state := "new" }) step1.1.interactions },
           { step1.2 with state := "new" })
      some (calculate_stats step2.1 post_pk, some step2.2)

/-- `Takahe.uninteract_post`: if the post is missing, log and return;
otherwise set every `(type, identity, post)` interaction to `undone` and
recompute the post's stats. -/
def uninteract_post (db : DB) (post_pk identity_pk : Nat) (type : String) : DB :=
  match db.posts.find? (fun p => p.pk == post_pk) with
  | none => db
  | some _ =>
    let db1 := { db with
      interactions := db.interactions.map (fun i =>
        if i.type == type && i.identity == identity_pk && i.post == post_pk then
          { i with state := "undone" }
        else i) }
    calculate_stats db1 post_pk

/-- `Takahe.like_post`. -/
def like_post (db : DB) (post_pk identity_pk : Nat) (fresh_pk : Nat) :
    Option (DB × Option PostInteractionRow) :=
  interact_post db post_pk identity_pk "like" fresh_pk

/-- `Takahe.unlike_post`. -/
def unlike_post (db : DB) (post_pk identity_pk : Nat) : DB :=
  uninteract_post db post_pk identity_pk "like"

/-- `Takahe.get_user_interaction`: `None` when the post is missing,
otherwise the first matching `(type, identity, post)` interaction. -/
def get_user_interaction (db : DB) (post_pk identity_pk : Nat) (type : String) :
    Option PostInteractionRow :=
  match db.posts.find? (fun p => p.pk == post_pk) with
  | none => none
  | some _ =>
    db.interactions.find? (fun i =>
      i.type == type && i.identity == identity_pk && i.post == post_pk)

/-- `Takahe.get_post_stats`: the empty dict when the post is missing,
otherwise `post.stats or {}`. -/
def get_post_stats (db : DB) (post_pk : Nat) : List (String × Nat) :=
  match db.posts.find? (fun p => p.pk == post_pk) with
  | none => []
  | some p => p.stats.getD []

end Takahe

/-! ## Observation helpers (spec-side, used only to state properties) -/

/-- The follower id list as the specification words it: the `source`
identity ids of the accepted Follow rows whose target is the identity (one
entry per row).  Stated from the spec for comparison with the source's
`Takahe.get_follower_ids`. -/
def spec_follower_ids (db : DB) (identity_pk : Nat) : List Nat :=
  (db.follows.filter (fun f => f.target == identity_pk && f.state == "accepted")).map
    (fun f => f.source)

/-- The like interactions of post `post_pk` by identity `identity_pk` that
are in an active (`new`/`fanned_out`) state. -/
def active_likes_by (db : DB) (post_pk identity_pk : Nat) : List PostInteractionRow :=
  db.interactions.filter (fun i =>
    i.post == post_pk && i.type == "like" && i.identity == identity_pk &&
    activeInteractionStates.contains i.state)

/-- Look one counter up in a post's published stats dict. -/
def stat_of (db : DB) (post_pk : Nat) (key : String) : Option Nat :=
  ((Takahe.get_post_stats db post_pk).find? (fun kv => kv.1 == key)).map (fun kv => kv.2)

/-- A sequence of `Takahe.follow(A, B)` calls, each drawing its own fresh
pk; a call that raises leaves the store unchanged (the exception fires
before any write). -/
def followSeq (db : DB) (source_pk target_pk : Nat) (pks : List Nat) : DB :=
  pks.foldl (fun d fresh_pk => (Takahe.follow d source_pk target_pk fresh_pk).getD d) db

/-! ## Concrete stores used as failing inputs and witnesses -/

/-- A store holding a single accepted Follow: identity 10 follows
identity 20. -/
def dbAcceptedFollow : DB :=
  { domains := [], identities := [], blocks := [], posts := [], interactions := [],
    follows := [{ pk := 1, source := 10, target := 20, boosts := true, uri := "",
                  state := "accepted" }] }

/-- A store with one post (pk 10) that identity 2 already actively likes,
with consistent stats; identity 1 has never interacted with it. -/
def dbOtherLike : DB :=
  { domains := [], identities := [], blocks := [], follows := [],
    posts := [{ pk := 10, author := 2, is_local := true, object_uri := some "u10",
                in_reply_to := none,
                stats := some [("likes", 1), ("boosts", 0), ("replies", 0)] }],
    interactions := [{ pk := 50, type := "like", identity := 2, post := 10,
                       state := "new" }] }

/-- A store with one never-liked post (pk 10) with consistent stats. -/
def dbFreshPost : DB :=
  { domains := [], identities := [], blocks := [], follows := [],
    posts := [{ pk := 10, author := 2, is_local := true, object_uri := some "u10",
                in_reply_to := none,
                stats := some [("likes", 0), ("boosts", 0), ("replies", 0)] }],
    interactions := [] }

/-- A store knowing one remote domain `a.example` and no identities. -/
def dbRemoteDomain : DB :=
  { domains := [{ domain := "a.example", is_local := false }], identities := [],
    follows := [], blocks := [], posts := [], interactions := [] }

/-- A store with a local identity 1 and a remote identity 2, an accepted
follow 1 → 2 and a pending follow request 2 → 1, and no blocks. -/
def dbLocalSource : DB :=
  { domains := [],
    identities := [
      { pk := 1, actor_uri := "https://l.example/@a/", username := "a",
        domain := some "l.example", is_local := true },
      { pk := 2, actor_uri := "https://r.example/@b/", username := "b",
        domain := some "r.example", is_local := false }],
    follows := [
      { pk := 7, source := 1, target := 2, boosts := true, uri := "u7",
        state := "accepted" },
      { pk := 8, source := 2, target := 1, boosts := true, uri := "u8",
        state := "pending_approval" }],
    blocks := [], posts := [], interactions := [] }

/-- A store with one local identity 1 that follows itself (an accepted
1 → 1 Follow row) and no blocks. -/
def dbSelfFollow : DB :=
  { domains := [],
    identities := [
      { pk := 1, actor_uri := "https://l.example/@a/", username := "a",
        domain := some "l.example", is_local := true }],
    follows := [
      { pk := 7, source := 1, target := 1, boosts := true, uri := "u7",
        state := "accepted" }],
    blocks := [], posts := [], interactions := [] }

/-! ## Helper lemmas about `updateFirst` and filtered lists -/

theorem length_updateFirst {α : Type} (p : α → Bool) (f : α → α) (l : List α) :
    (updateFirst p f l).length = l.length := by
  induction l with
  | nil => rfl
  | cons x xs ih =>
    simp only [updateFirst]
    split <;> simp [ih]

theorem updateFirst_of_forall_not {α : Type} {p : α → Bool} (f : α → α) {l : List α}
    (h : ∀ x ∈ l, p x = false) : updateFirst p f l = l := by
  induction l with
  | nil => rfl
  | cons x xs ih =>
    simp only [updateFirst]
    rw [if_neg (by simp [h x (by simp)]), ih (fun y hy => h y (by simp [hy]))]

theorem updateFirst_eq_of_find? {α : Type} {p : α → Bool} {f : α → α} {l : List α} {x : α}
    (hfind : l.find? p = some x) (hfix : f x = x) : updateFirst p f l = l := by
  induction l with
  | nil => simp at hfind
  | cons y ys ih =>
    by_cases hy : p y = true
    · rw [List.find?_cons_of_pos _ hy] at hfind
      obtain rfl : y = x := by injection hfind
      simp [updateFirst, hy, hfix]
    · rw [List.find?_cons_of_neg _ (by simp [hy])] at hfind
      simp [updateFirst, hy, ih hfind]

theorem find?_updateFirst {α : Type} {p : α → Bool} {f : α → α} {l : List α} {x : α}
    (hfind : l.find? p = some x) (hp : p (f x) = true) :
    (updateFirst p f l).find? p = some (f x) := by
  induction l with
  | nil => simp at hfind
  | cons y ys ih =>
    by_cases hy : p y = true
    · rw [List.find?_cons_of_pos _ hy] at hfind
      obtain rfl : y = x := by injection hfind
      simp [updateFirst, hy, List.find?_cons_of_pos _ hp]
    · rw [List.find?_cons_of_neg _ (by simp [hy])] at hfind
      simp only [updateFirst, if_neg hy]
      rw [List.find?_cons_of_neg _ (by simp [hy]), ih hfind]

theorem mem_updateFirst {α : Type} {p : α → Bool} {f : α → α} {l : List α} {x : α}
    (hx : x ∈ updateFirst p f l) : x ∈ l ∨ ∃ y, y ∈ l ∧ p y = true ∧ x = f y := by
  induction l with
  | nil => simp [updateFirst] at hx
  | cons y ys ih =>
    simp only [updateFirst] at hx
    by_cases hy : p y = true
    · rw [if_pos hy] at hx
      rcases List.mem_cons.mp hx with h | h
      · exact Or.inr ⟨y, by simp, hy, h⟩
      · exact Or.inl (List.mem_cons.mpr (Or.inr h))
    · rw [if_neg hy] at hx
      rcases List.mem_cons.mp hx with h | h
      · exact Or.inl (by simp [h])
      · rcases ih h with h' | ⟨z, hz, hpz, hxz⟩
        · exact Or.inl (by simp [h'])
        · exact Or.inr ⟨z, by simp [hz], hpz, hxz⟩

theorem mem_updateFirst_of_not {α : Type} {p : α → Bool} (f : α → α) {l : List α} {x : α}
    (hx : x ∈ l) (hpx : p x = false) : x ∈ updateFirst p f l := by
  induction l with
  | nil => simp at hx
  | cons y ys ih =>
    simp only [updateFirst]
    rcases List.mem_cons.mp hx with rfl | h
    · rw [if_neg (by simp [hpx])]
      exact List.mem_cons_self _ _
    · split
      · exact List.mem_cons.mpr (Or.inr h)
      · exact List.mem_cons.mpr (Or.inr (ih h))

theorem filter_updateFirst_single {α : Type} {p : α → Bool} {f : α → α} {l : List α} {b : α}
    (hfil : l.filter p = [b]) (hpf : p (f b) = true) :
    (updateFirst p f l).filter p = [f b] := by
  induction l with
  | nil => simp at hfil
  | cons y ys ih =>
    by_cases hy : p y = true
    · rw [List.filter_cons_of_pos hy] at hfil
      obtain ⟨rfl, hys⟩ : y = b ∧ ys.filter p = [] := by
        have h1 := List.head_eq_of_cons_eq hfil
        have h2 := List.tail_eq_of_cons_eq hfil
        exact ⟨h1, h2⟩
      simp [updateFirst, hy, List.filter_cons_of_pos hpf, hys]
    · rw [List.filter_cons_of_neg (by simp [hy])] at hfil
      simp [updateFirst, hy, List.filter_cons_of_neg, ih hfil]

theorem filter_updateFirst_of_disjoint {α : Type} {p q : α → Bool} {f : α → α} {l : List α}
    (h : ∀ x ∈ l, p x = true → (q x = false ∧ q (f x) = false)) :
    (updateFirst p f l).filter q = l.filter q := by
  induction l with
  | nil => rfl
  | cons y ys ih =>
    simp only [updateFirst]
    by_cases hy : p y = true
    · rw [if_pos hy]
      obtain ⟨h1, h2⟩ := h y (by simp) hy
      rw [List.filter_cons_of_neg (by simp [h2]), List.filter_cons_of_neg (by simp [h1])]
    · rw [if_neg hy, List.filter_cons, List.filter_cons,
        ih (fun z hz => h z (by simp [hz]))]

theorem length_filter_updateFirst {α : Type} {p q : α → Bool} {f : α → α} (l : List α)
    (h : ∀ x, q (f x) = q x) :
    ((updateFirst p f l).filter q).length = (l.filter q).length := by
  induction l with
  | nil => rfl
  | cons y ys ih =>
    simp only [updateFirst]
    split
    · simp only [List.filter_cons, h y]
      split <;> simp
    · simp only [List.filter_cons]
      split <;> simp [ih]

theorem find?_of_filter_single {α : Type} {p : α → Bool} {l : List α} {b : α}
    (hfil : l.filter p = [b]) : l.find? p = some b := by
  induction l with
  | nil => simp at hfil
  | cons y ys ih =>
    by_cases hy : p y = true
    · rw [List.filter_cons_of_pos hy] at hfil
      obtain rfl : y = b := by injection hfil
      exact List.find?_cons_of_pos _ hy
    · rw [List.filter_cons_of_neg (by simp [hy])] at hfil
      rw [List.find?_cons_of_neg _ (by simp [hy])]
      exact ih hfil

theorem filter_single_of_mem {α : Type} {p : α → Bool} {l : List α} {x : α}
    (hx : x ∈ l) (hpx : p x = true) (hlen : (l.filter p).length ≤ 1) :
    l.filter p = [x] := by
  have hmem : x ∈ l.filter p := List.mem_filter.mpr ⟨hx, hpx⟩
  match h : l.filter p with
  | [] => rw [h] at hmem; simp at hmem
  | [y] =>
    rw [h] at hmem
    obtain rfl : x = y := by simpa using hmem
    rfl
  | y :: z :: tl => rw [h] at hlen; simp at hlen

theorem filter_nil_of_sub {α : Type} {p q : α → Bool} {l : List α}
    (h : l.filter p = []) (hsub : ∀ x, q x = true → p x = true) : l.filter q = [] := by
  rw [List.filter_eq_nil_iff] at h ⊢
  intro x hx hqx
  exact h x hx (hsub x hqx)

/-! ## C1 — follower id lists -/

/-- C1: the claim says `Takahe.get_follower_ids(identity_pk)` returns the
source identity ids of the accepted Follow rows targeting `identity_pk`.
On the store holding the single accepted follow 10 → 20, the source instead
returns the target column — `[20]`, the queried identity's own pk — where
the claimed result is the follower's id `[10]`: the code contradicts its
own name and the spec's intent (`get_following_ids` is the same query on
the other side and correctly returns the opposite column). -/
theorem c1_get_follower_ids_returns_target_column :
    Takahe.get_follower_ids dbAcceptedFollow 20 = [20] ∧
    spec_follower_ids dbAcceptedFollow 20 = [10] ∧
    Takahe.get_follower_ids dbAcceptedFollow 20 ≠ spec_follower_ids dbAcceptedFollow 20 := by
  refine ⟨rfl, rfl, by decide⟩

/-! ## C9 — `Block.maybe_get` with `require_active` -/

/-- C9: the claim says `Block.maybe_get(source, target, mute,
require_active=True)` returns the block exactly when its state is active
and never raises.  The source instead filters on `status__in=[...]`, and
the Block model has no `status` field (its state column is named `state`),
so Django raises `FieldError` on every such call, for every store and every
argument: the state-based filtering the claim (and the spec's §9 intent
note) describes is never performed. -/
theorem c9_maybe_get_require_active_always_raises (db : DB) (source target : Nat)
    (mute : Bool) :
    maybe_get db source target mute true = .error (.fieldError "status") := rfl

/-! ## C3 — webfinger error dispatch -/

/-- C3 counterexample: the claim says every non-success 5xx response raises
a distinguishable error carrying status and body.  A 500 response instead
falls into the `response.status_code < 500` guard's negative branch and is
returned as a plain not-found `(None, None)`. -/
theorem c3_counterexample_500_swallowed :
    fetch_webfinger (.httpErrorStatus 500 "server error") = .ok (none, none) ∧
    fetch_webfinger (.httpErrorStatus 500 "server error") ≠
      .error (.clientError 500 "server error") := by
  refine ⟨rfl, fun h => Except.noConfusion h⟩

/-- C3 (amended): webfinger resolution returns the not-found result
`(None, None)` without raising on a network failure, a TLS certificate
error, an HTTP error response with status in {400, 401, 403, 404, 406,
410}, and also on every 5xx response; it raises the distinguishable
client-error (carrying status and body) exactly for the remaining 4xx
statuses. -/
theorem c3_fetch_webfinger_error_dispatch (status : Nat) (body : String)
    (h4 : 400 ≤ status) :
    fetch_webfinger .hostMetaCertError = .ok (none, none) ∧
    fetch_webfinger .requestFailure = .ok (none, none) ∧
    (toleratedStatuses.contains status = true →
      fetch_webfinger (.httpErrorStatus status body) = .ok (none, none)) ∧
    (500 ≤ status →
      fetch_webfinger (.httpErrorStatus status body) = .ok (none, none)) ∧
    (status < 500 → toleratedStatuses.contains status = false →
      fetch_webfinger (.httpErrorStatus status body) = .error (.clientError status body)) := by
  have hred : fetch_webfinger (.httpErrorStatus status body) =
      if (decide (status < 500) && !toleratedStatuses.contains status) = true then
        .error (.clientError status body)
      else .ok (none, none) := rfl
  refine ⟨rfl, rfl, ?_, ?_, ?_⟩
  · intro h
    rw [hred, if_neg]
    rw [h]
    simp
  · intro h
    rw [hred, if_neg]
    intro hcond
    simp at hcond
    omega
  · intro h1 h2
    rw [hred, if_pos]
    rw [h2]
    simp
    omega

/-- Witness for C3: a 422 response (a 4xx outside the tolerated set) raises
the client error carrying its status and body. -/
theorem c3_fetch_webfinger_error_dispatch_witness :
    400 ≤ 422 ∧
    fetch_webfinger (.httpErrorStatus 422 "unprocessable") =
      .error (.clientError 422 "unprocessable") := by
  refine ⟨by decide, ?_⟩
  exact (c3_fetch_webfinger_error_dispatch 422 "unprocessable" (by decide)).2.2.2.2
    (by decide) (by decide)

/-! ## C8 — snowflake ids -/

/-- Under the generator's input bounds, the packed id equals the plain
arithmetic sum `t * 2^22 + r * 8 + y` (the three bit fields do not
overlap). -/
theorem snowflake_generate_eq (t r y : Nat) (hr : r < 2 ^ 19) (hy : y < 8) :
    Snowflake.generate t r y = t * 2 ^ 22 + r * 8 + y := by
  have e3 : (2 : Nat) ^ 3 = 8 := by norm_num
  have e19 : (2 : Nat) ^ 19 = 524288 := by norm_num
  have e22 : (2 : Nat) ^ 22 = 4194304 := by norm_num
  have h8 : y < 2 ^ 3 := by omega
  have hr8 : r * 2 ^ 3 < 2 ^ 22 := by
    rw [e3, e22]
    omega
  unfold Snowflake.generate
  rw [Nat.shiftLeft_eq, Nat.shiftLeft_eq, Nat.mul_comm t (2 ^ 22),
    ← Nat.mul_add_lt_is_or hr8 t]
  have hsplit : 2 ^ 22 * t + r * 2 ^ 3 = 2 ^ 3 * (2 ^ 19 * t + r) := by ring
  rw [hsplit, ← Nat.mul_add_lt_is_or h8 _]
  ring

/-- C8 counterexample: the claim quantifies over every generation instant
after the epoch and every tag.  An id generated in the very first
millisecond after the epoch (timestamp field 0) with random field 0 and tag
0 is the integer 0, which is below the minimum representable value, so
`get_type` raises the invalid-identifier error instead of returning the
tag; and an instant 2^41 ms after the epoch no longer fits in 63 bits. -/
theorem c8_counterexample_boundaries :
    Snowflake.generate 0 0 0 = 0 ∧
    Snowflake.get_type (Snowflake.generate 0 0 0) = .error "Not a valid Snowflake ID" ∧
    ¬ Snowflake.generate (2 ^ 41) 0 0 < 2 ^ 63 := by
  refine ⟨rfl, rfl, by decide⟩

/-- C8 (amended): for every tag `y < 8`, random field `r < 2^19` and
generation instant at least 1 ms and less than 2^41 ms after the epoch, the
generated id fits in 63 bits, `get_type` recovers exactly `y`, and the
recovered millisecond timestamp equals the generated one (so `get_time` is
within 1 ms of the true generation instant, whose sub-millisecond part the
generator floors away); and both accessors fail with the
invalid-identifier error on every id below `2^22`. -/
theorem c8_snowflake_roundtrip (t r y : Nat)
    (ht1 : 1 ≤ t) (ht2 : t < 2 ^ 41) (hr : r < 2 ^ 19) (hy : y < 8) :
    Snowflake.generate t r y < 2 ^ 63 ∧
    Snowflake.get_type (Snowflake.generate t r y) = .ok y ∧
    Snowflake.get_time_ms (Snowflake.generate t r y) = .ok t ∧
    (∀ s, s < 2 ^ 22 →
      Snowflake.get_type s = .error "Not a valid Snowflake ID" ∧
      Snowflake.get_time_ms s = .error "Not a valid Snowflake ID") := by
  have hgen := snowflake_generate_eq t r y hr hy
  have e22 : (2 : Nat) ^ 22 = 4194304 := by norm_num
  have e41 : (2 : Nat) ^ 41 = 2199023255552 := by norm_num
  have e63 : (2 : Nat) ^ 63 = 9223372036854775808 := by norm_num
  have e19 : (2 : Nat) ^ 19 = 524288 := by norm_num
  have hge : ¬ Snowflake.generate t r y < 1 <<< 22 := by
    rw [Nat.one_shiftLeft, hgen]
    omega
  refine ⟨?_, ?_, ?_, ?_⟩
  · rw [hgen]; omega
  · rw [Snowflake.get_type, if_neg hge, hgen]
    have h7 : (7 : Nat) = 2 ^ 3 - 1 := by norm_num
    show Except.ok (_ &&& 7) = _
    rw [h7, Nat.and_pow_two_sub_one_eq_mod]
    have : (t * 2 ^ 22 + r * 8 + y) % 2 ^ 3 = y := by omega
    rw [this]
  · rw [Snowflake.get_time_ms, if_neg hge, hgen, Nat.shiftRight_eq_div_pow]
    have : (t * 2 ^ 22 + r * 8 + y) / 2 ^ 22 = t := by omega
    rw [this]
  · intro s hs
    have hlt : s < 1 <<< 22 := by rw [Nat.one_shiftLeft]; omega
    exact ⟨by rw [Snowflake.get_type, if_pos hlt], by rw [Snowflake.get_time_ms, if_pos hlt]⟩

/-- Witness for C8: a concrete in-range generation (t = 1000 ms, r = 77,
y = 5) round-trips, and the id 1234 is rejected by both accessors. -/
theorem c8_snowflake_roundtrip_witness :
    Snowflake.generate 1000 77 5 < 2 ^ 63 ∧
    Snowflake.get_type (Snowflake.generate 1000 77 5) = .ok 5 ∧
    Snowflake.get_time_ms (Snowflake.generate 1000 77 5) = .ok 1000 ∧
    Snowflake.get_type 1234 = .error "Not a valid Snowflake ID" ∧
    Snowflake.get_time_ms 1234 = .error "Not a valid Snowflake ID" := by
  have h := c8_snowflake_roundtrip 1000 77 5 (by decide) (by decide) (by decide) (by decide)
  exact ⟨h.1, h.2.1, h.2.2.1, (h.2.2.2 1234 (by decide)).1, (h.2.2.2 1234 (by decide)).2⟩

/-! ## C10 — facade operations on a missing post -/

/-- C10: when no post matches `post_pk`, the four facade operations are
total safe no-ops: `interact_post` returns `None` with the store untouched,
`uninteract_post` leaves the store unchanged, `get_user_interaction`
returns `None`, and `get_post_stats` returns the empty dict. -/
theorem c10_missing_post_noops (db : DB) (post_pk identity_pk : Nat) (type : String)
    (fresh_pk : Nat) (h : db.posts.find? (fun p => p.pk == post_pk) = none) :
    Takahe.interact_post db post_pk identity_pk type fresh_pk = some (db, none) ∧
    Takahe.uninteract_post db post_pk identity_pk type = db ∧
    Takahe.get_user_interaction db post_pk identity_pk type = none ∧
    Takahe.get_post_stats db post_pk = [] := by
  refine ⟨?_, ?_, ?_, ?_⟩ <;>
    simp [Takahe.interact_post, Takahe.uninteract_post, Takahe.get_user_interaction,
      Takahe.get_post_stats, h]

/-- Witness for C10: the empty store has no post 1, and all four operations
are no-ops there. -/
theorem c10_missing_post_noops_witness :
    Takahe.interact_post dbRemoteDomain 1 2 "like" 9 = some (dbRemoteDomain, none) ∧
    Takahe.uninteract_post dbRemoteDomain 1 2 "like" = dbRemoteDomain ∧
    Takahe.get_user_interaction dbRemoteDomain 1 2 "like" = none ∧
    Takahe.get_post_stats dbRemoteDomain 1 = [] :=
  c10_missing_post_noops dbRemoteDomain 1 2 "like" 9 rfl

/-! ## Shared facts about `calculate_stats` -/

theorem contains_active (s : String) :
    activeInteractionStates.contains s = (s == "new" || s == "fanned_out") := by
  by_cases h1 : s = "new"
  · subst h1; rfl
  · by_cases h2 : s = "fanned_out"
    · subst h2; rfl
    · have b1 : (s == "new") = false := beq_eq_false_iff_ne.mpr h1
      have b2 : (s == "fanned_out") = false := beq_eq_false_iff_ne.mpr h2
      simp [activeInteractionStates, List.contains_cons, b1, b2]
      exact ⟨h1, h2⟩

theorem calculate_stats_interactions (db : DB) (post_pk : Nat) :
    (calculate_stats db post_pk).interactions = db.interactions := by
  unfold calculate_stats
  cases db.posts.find? (fun p => p.pk == post_pk) <;> rfl

theorem calculate_stats_follows (db : DB) (post_pk : Nat) :
    (calculate_stats db post_pk).follows = db.follows := by
  unfold calculate_stats
  cases db.posts.find? (fun p => p.pk == post_pk) <;> rfl

theorem calculate_stats_blocks (db : DB) (post_pk : Nat) :
    (calculate_stats db post_pk).blocks = db.blocks := by
  unfold calculate_stats
  cases db.posts.find? (fun p => p.pk == post_pk) <;> rfl

theorem calculate_stats_of_find? {db : DB} {post_pk : Nat} {p : PostRow}
    (hp : db.posts.find? (fun q => q.pk == post_pk) = some p) :
    calculate_stats db post_pk =
      { db with
          posts := updateFirst (fun q => q.pk == post_pk)
            (fun q => { q with stats := some (calculated_stats db p) }) db.posts } := by
  unfold calculate_stats
  rw [hp]

theorem calculate_stats_of_find?_none {db : DB} {post_pk : Nat}
    (hp : db.posts.find? (fun q => q.pk == post_pk) = none) :
    calculate_stats db post_pk = db := by
  unfold calculate_stats
  rw [hp]

/-- The computed stats value depends only on the interactions, on the
reply-link profile of the post table, and on the post's pk and
`object_uri`. -/
theorem calculated_stats_congr {db : DB} {posts' : List PostRow} {p p' : PostRow}
    (hpk : p'.pk = p.pk) (huri : p'.object_uri = p.object_uri)
    (hlen : ∀ u, (posts'.filter (fun q => q.in_reply_to == u)).length =
      (db.posts.filter (fun q => q.in_reply_to == u)).length) :
    calculated_stats { db with posts := posts' } p' = calculated_stats db p := by
  simp only [calculated_stats, hpk, huri, hlen]

/-- Saving a recomputed stats dict changes neither the interactions nor any
reply link, so recomputation is idempotent. -/
theorem calculate_stats_idem (db : DB) (post_pk : Nat) :
    calculate_stats (calculate_stats db post_pk) post_pk = calculate_stats db post_pk := by
  cases hp : db.posts.find? (fun q => q.pk == post_pk) with
  | none =>
    rw [calculate_stats_of_find?_none hp, calculate_stats_of_find?_none hp]
  | some p =>
    have hppk := List.find?_some hp
    have h1 := calculate_stats_of_find? hp
    have hfix : (fun q => { q with stats := some (calculated_stats db p) })
        ({ p with stats := some (calculated_stats db p) }) =
        { p with stats := some (calculated_stats db p) } := rfl
    have hfind2 : (calculate_stats db post_pk).posts.find? (fun q => q.pk == post_pk) =
        some ({ p with stats := some (calculated_stats db p) }) := by
      rw [h1]
      exact find?_updateFirst hp hppk
    have hlen : ∀ u, ((calculate_stats db post_pk).posts.filter
        (fun q => q.in_reply_to == u)).length =
        (db.posts.filter (fun q => q.in_reply_to == u)).length := by
      intro u
      rw [h1]
      exact length_filter_updateFirst db.posts (fun x => rfl)
    have hsame : calculated_stats (calculate_stats db post_pk)
        ({ p with stats := some (calculated_stats db p) }) = calculated_stats db p := by
      have hposts : calculate_stats db post_pk =
          { db with posts := (calculate_stats db post_pk).posts } := by
        rw [h1]
      rw [hposts]
      exact calculated_stats_congr rfl rfl (by simpa using hlen)
    rw [calculate_stats_of_find? hfind2, hsame]
    rw [updateFirst_eq_of_find? hfind2 hfix]

/-! ## C5 — stats recomputation -/

/-- C5: `calculate_stats` stores on the post exactly the dict
`{likes, boosts, replies}` where likes/boosts count that post's like/boost
interactions in state `new` or `fanned_out` and replies counts the posts
whose `in_reply_to` equals this post's `object_uri`; and a second
recomputation with no intervening change produces an identical result. -/
theorem c5_calculate_stats_exact_and_idempotent (db : DB) (post_pk : Nat) (p0 : PostRow)
    (hp : db.posts.find? (fun q => q.pk == post_pk) = some p0) :
    (∃ p1, (calculate_stats db post_pk).posts.find? (fun q => q.pk == post_pk) = some p1 ∧
      p1.stats = some
        [("likes", (db.interactions.filter (fun i =>
            i.post == p0.pk && i.type == "like" &&
              (i.state == "new" || i.state == "fanned_out"))).length),
         ("boosts", (db.interactions.filter (fun i =>
            i.post == p0.pk && i.type == "boost" &&
              (i.state == "new" || i.state == "fanned_out"))).length),
         ("replies", (db.posts.filter (fun q => q.in_reply_to == p0.object_uri)).length)]) ∧
    calculate_stats (calculate_stats db post_pk) post_pk = calculate_stats db post_pk := by
  have hppk := List.find?_some hp
  refine ⟨⟨{ p0 with stats := some (calculated_stats db p0) }, ?_, ?_⟩,
    calculate_stats_idem db post_pk⟩
  · rw [calculate_stats_of_find? hp]
    exact find?_updateFirst hp hppk
  · show some (calculated_stats db p0) = _
    have hlike : db.interactions.filter (fun i =>
        i.post == p0.pk && i.type == "like" && activeInteractionStates.contains i.state) =
        db.interactions.filter (fun i =>
          i.post == p0.pk && i.type == "like" && (i.state == "new" || i.state == "fanned_out")) :=
      List.filter_congr (fun i _ => by rw [contains_active])
    have hboost : db.interactions.filter (fun i =>
        i.post == p0.pk && i.type == "boost" && activeInteractionStates.contains i.state) =
        db.interactions.filter (fun i =>
          i.post == p0.pk && i.type == "boost" && (i.state == "new" || i.state == "fanned_out")) :=
      List.filter_congr (fun i _ => by rw [contains_active])
    unfold calculated_stats
    rw [hlike, hboost]

/-- Witness for C5: recomputing the stats of post 10 in the concrete store
with one active like yields exactly `likes = 1, boosts = 0, replies = 0`,
and recomputation is idempotent there. -/
theorem c5_calculate_stats_exact_and_idempotent_witness :
    (∃ p1, (calculate_stats dbOtherLike 10).posts.find? (fun q => q.pk == 10) = some p1 ∧
      p1.stats = some
        [("likes", (dbOtherLike.interactions.filter (fun i =>
            i.post == 10 && i.type == "like" &&
              (i.state == "new" || i.state == "fanned_out"))).length),
         ("boosts", (dbOtherLike.interactions.filter (fun i =>
            i.post == 10 && i.type == "boost" &&
              (i.state == "new" || i.state == "fanned_out"))).length),
         ("replies", (dbOtherLike.posts.filter
            (fun q => q.in_reply_to == some "u10")).length)]) ∧
    calculate_stats (calculate_stats dbOtherLike 10) 10 = calculate_stats dbOtherLike 10 :=
  c5_calculate_stats_exact_and_idempotent dbOtherLike 10
    { pk := 10, author := 2, is_local := true, object_uri := some "u10",
      in_reply_to := none,
      stats := some [("likes", 1), ("boosts", 0), ("replies", 0)] } rfl

/-! ## Shared facts about `interact_post` / `uninteract_post` -/

/-- `interact_post` when the post exists and no matching interaction row
does: create the row in state `new` and recompute stats. -/
theorem interact_post_absent {db : DB} {P I fresh : Nat} {ty : String} {p0 : PostRow}
    (hp : db.posts.find? (fun p => p.pk == P) = some p0)
    (hnone : db.interactions.filter (fun i =>
      i.type == ty && i.identity == I && i.post == P) = []) :
    Takahe.interact_post db P I ty fresh =
      some (calculate_stats (withInteractions db
          (db.interactions ++ [⟨fresh, ty, I, P, "new"⟩])) P,
        some ⟨fresh, ty, I, P, "new"⟩) := by
  unfold Takahe.interact_post withInteractions
  rw [hp, hnone]
  exact rfl

/-- `interact_post` when the matching interaction row exists in an active
state: no write besides the stats recomputation. -/
theorem interact_post_active {db : DB} {P I : Nat} (fresh : Nat) {ty : String}
    {p0 : PostRow} {i0 : PostInteractionRow}
    (hp : db.posts.find? (fun p => p.pk == P) = some p0)
    (hone : db.interactions.filter (fun i =>
      i.type == ty && i.identity == I && i.post == P) = [i0])
    (hactive : activeInteractionStates.contains i0.state = true) :
    Takahe.interact_post db P I ty fresh = some (calculate_stats db P, some i0) := by
  unfold Takahe.interact_post
  rw [hp, hone]
  dsimp only
  rw [hactive]
  rfl

/-- `uninteract_post` when the post exists: set matching rows to `undone`
and recompute stats. -/
theorem uninteract_post_eq {db : DB} {P I : Nat} {ty : String} {p0 : PostRow}
    (hp : db.posts.find? (fun p => p.pk == P) = some p0) :
    Takahe.uninteract_post db P I ty =
      calculate_stats (withInteractions db (db.interactions.map (fun i =>
        if i.type == ty && i.identity == I && i.post == P then { i with state := "undone" }
        else i))) P := by
  unfold Takahe.uninteract_post withInteractions
  rw [hp]

/-- The published likes counter right after a stats recomputation. -/
theorem stat_of_likes_after_calc {db : DB} {P : Nat} {p0 : PostRow}
    (hp : db.posts.find? (fun q => q.pk == P) = some p0) :
    stat_of (calculate_stats db P) P "likes" =
      some ((db.interactions.filter (fun i =>
        i.post == p0.pk && i.type == "like" &&
          activeInteractionStates.contains i.state)).length) := by
  have hppk := List.find?_some hp
  unfold stat_of Takahe.get_post_stats
  rw [calculate_stats_of_find? hp, find?_updateFirst hp hppk]
  exact rfl

/-! ## C4 — like toggling -/

/-- C4 (amended): for a post `P` none of whose like interactions is in an
active state, and an identity `I` with no like interaction row for `(I, P)`
at all: liking twice is the same as liking once (the second call returns
the same store and row), leaving exactly one active like row for `(I, P)`
and published `stats["likes"] = 1`; a subsequent unlike leaves zero active
like rows for `(I, P)` and `stats["likes"] = 0`; and an unlike when no
matching interaction row exists (and the stored stats are the computed
ones) changes nothing.  The original claim's weaker precondition — only no
prior like *between `I` and `P`* — is refuted by
`c4_counterexample_other_like`, since the likes counter counts every
identity's active likes. -/
theorem c4_like_toggle (db : DB) (P I fresh1 fresh2 : Nat) (p0 : PostRow)
    (hp : db.posts.find? (fun q => q.pk == P) = some p0)
    (hIP : db.interactions.filter (fun i =>
      i.type == "like" && i.identity == I && i.post == P) = [])
    (hact : ∀ i ∈ db.interactions, i.post = P → i.type = "like" →
      activeInteractionStates.contains i.state = false) :
    (∃ db1 r1,
      Takahe.like_post db P I fresh1 = some (db1, some r1) ∧
      Takahe.like_post db1 P I fresh2 = some (db1, some r1) ∧
      (active_likes_by db1 P I).length = 1 ∧
      stat_of db1 P "likes" = some 1 ∧
      (active_likes_by (Takahe.unlike_post db1 P I) P I).length = 0 ∧
      stat_of (Takahe.unlike_post db1 P I) P "likes" = some 0) ∧
    (p0.stats = some (calculated_stats db p0) → Takahe.unlike_post db P I = db) := by
  have hppk := List.find?_some hp
  have hpkeq : p0.pk = P := by simpa using hppk
  have hIPfalse : ∀ i ∈ db.interactions,
      (i.type == "like" && i.identity == I && i.post == P) = false := by
    intro i hi
    have := List.filter_eq_nil_iff.mp hIP i hi
    simpa using this
  have hmapid : db.interactions.map (fun i =>
      if i.type == "like" && i.identity == I && i.post == P then
        { i with state := "undone" } else i) = db.interactions := by
    calc db.interactions.map (fun i =>
          if i.type == "like" && i.identity == I && i.post == P then
            { i with state := "undone" } else i)
        = db.interactions.map (fun i => i) := by
          apply List.map_congr_left
          intro i hi
          rw [if_neg (by simp [hIPfalse i hi])]
      _ = db.interactions := List.map_id' db.interactions
  have hdbpart : db.interactions.filter (fun i =>
      i.post == P && i.type == "like" && activeInteractionStates.contains i.state) = [] := by
    rw [List.filter_eq_nil_iff]
    intro i hi hcon
    simp only [Bool.and_eq_true] at hcon
    obtain ⟨⟨hpost, htype⟩, hstate⟩ := hcon
    have hf := hact i hi (by simpa using hpost) (by simpa using htype)
    rw [hf] at hstate
    cases hstate
  have hALdb : db.interactions.filter (fun i =>
      i.post == P && i.type == "like" && i.identity == I &&
        activeInteractionStates.contains i.state) = [] := by
    refine filter_nil_of_sub hIP ?_
    intro x hx
    simp only [Bool.and_eq_true] at hx ⊢
    exact ⟨⟨hx.1.1.2, hx.1.2⟩, hx.1.1.1⟩
  constructor
  · -- the toggle scenario
    set row1 : PostInteractionRow := ⟨fresh1, "like", I, P, "new"⟩ with hrow1
    set dbA : DB := withInteractions db (db.interactions ++ [row1]) with hdbA
    have hpA : dbA.posts.find? (fun q => q.pk == P) = some p0 := hp
    have hintA : dbA.interactions = db.interactions ++ [row1] := rfl
    set db1 : DB := calculate_stats dbA P with hdb1
    set p1 : PostRow := { p0 with stats := some (calculated_stats dbA p0) } with hp1def
    have hint1 : db1.interactions = db.interactions ++ [row1] :=
      calculate_stats_interactions dbA P
    have hfind1 : db1.posts.find? (fun q => q.pk == P) = some p1 := by
      rw [hdb1, calculate_stats_of_find? hpA]
      exact find?_updateFirst hpA hppk
    have hrow1pred : (row1.type == "like" && row1.identity == I && row1.post == P) = true := by
      simp [hrow1]
    have hone : db1.interactions.filter (fun i =>
        i.type == "like" && i.identity == I && i.post == P) = [row1] := by
      rw [hint1, List.filter_append, hIP]
      simp [List.filter_cons, hrow1pred]
    set dbU : DB := withInteractions db1 (db1.interactions.map (fun i =>
      if i.type == "like" && i.identity == I && i.post == P then { i with state := "undone" }
      else i)) with hdbU
    have hunfold : Takahe.unlike_post db1 P I = calculate_stats dbU P :=
      uninteract_post_eq hfind1
    have hintU : dbU.interactions =
        db.interactions ++ [(⟨fresh1, "like", I, P, "undone"⟩ : PostInteractionRow)] := by
      show db1.interactions.map _ = _
      rw [hint1, List.map_append, hmapid]
      simp [hrow1]
    have hfindU : dbU.posts.find? (fun q => q.pk == P) = some p1 := hfind1
    refine ⟨db1, row1, interact_post_absent hp hIP, ?_, ?_, ?_, ?_, ?_⟩
    · -- second like leaves the store and row unchanged
      have h2 := interact_post_active fresh2 hfind1 hone (by rw [hrow1]; rfl)
      rw [Takahe.like_post, h2, hdb1, calculate_stats_idem]
    · -- exactly one active like by (I, P)
      unfold active_likes_by
      rw [hint1, List.filter_append, hALdb]
      simp [List.filter_cons, hrow1, activeInteractionStates]
    · -- stats.likes = 1
      rw [hdb1, stat_of_likes_after_calc hpA, hpkeq, hintA, List.filter_append, hdbpart]
      simp [List.filter_cons, hrow1, activeInteractionStates]
    · -- after unlike: zero active likes by (I, P)
      rw [hunfold]
      unfold active_likes_by
      rw [calculate_stats_interactions, hintU, List.filter_append, hALdb]
      simp [List.filter_cons, activeInteractionStates]
    · -- after unlike: stats.likes = 0
      rw [hunfold, stat_of_likes_after_calc hfindU]
      rw [show p1.pk = P from hpkeq, hintU, List.filter_append, hdbpart]
      simp [List.filter_cons, activeInteractionStates]
  · -- unlike with no matching interaction is a no-op
    intro hstats
    rw [Takahe.unlike_post, uninteract_post_eq hp, hmapid]
    have hfix : (fun q => { q with stats := some (calculated_stats db p0) }) p0 = p0 := by
      rw [← hstats]
    have hsame : withInteractions db db.interactions = db := rfl
    rw [hsame, calculate_stats_of_find? hp, updateFirst_eq_of_find? hp hfix]


/-- C4 counterexample: identity 1 has no prior like interaction with
post 10, yet because identity 2 already actively likes it, liking twice as
identity 1 yields `stats["likes"] = 2`, not 1 as the claim states. -/
theorem c4_counterexample_other_like :
    dbOtherLike.interactions.filter (fun i =>
      i.type == "like" && i.identity == 1 && i.post == 10) = [] ∧
    ((Takahe.like_post dbOtherLike 10 1 60).bind
      (fun r => Takahe.like_post r.1 10 1 61)).map (fun r => stat_of r.1 10 "likes") =
      some (some 2) ∧
    some (some 2) ≠ some (some (1 : Nat)) := by
  refine ⟨rfl, rfl, by decide⟩

/-- Witness for C4: the full toggle scenario on the concrete store with a
fresh post. -/
theorem c4_like_toggle_witness :
    (∃ db1 r1,
      Takahe.like_post dbFreshPost 10 1 60 = some (db1, some r1) ∧
      Takahe.like_post db1 10 1 61 = some (db1, some r1) ∧
      (active_likes_by db1 10 1).length = 1 ∧
      stat_of db1 10 "likes" = some 1 ∧
      (active_likes_by (Takahe.unlike_post db1 10 1) 10 1).length = 0 ∧
      stat_of (Takahe.unlike_post db1 10 1) 10 "likes" = some 0) ∧
    ((⟨10, 2, true, some "u10", none,
        some [("likes", 0), ("boosts", 0), ("replies", 0)]⟩ : PostRow).stats =
      some (calculated_stats dbFreshPost
        ⟨10, 2, true, some "u10", none,
          some [("likes", 0), ("boosts", 0), ("replies", 0)]⟩) →
      Takahe.unlike_post dbFreshPost 10 1 = dbFreshPost) :=
  c4_like_toggle dbFreshPost 10 1 60 61
    ⟨10, 2, true, some "u10", none, some [("likes", 0), ("boosts", 0), ("replies", 0)]⟩
    rfl rfl (by decide)

/-! ## Shared facts about `Takahe.follow` -/

/-- `Takahe.follow` when the `(source, target)` row exists with state
`accepted`: nothing is written. -/
theorem follow_existing_accepted {db : DB} {A B fresh : Nat} {f0 : FollowRow}
    (hfil : db.follows.filter (fun f => f.source == A && f.target == B) = [f0])
    (hacc : f0.state = "accepted") :
    Takahe.follow db A B fresh = some db := by
  unfold Takahe.follow
  rw [hfil]
  dsimp only
  rw [show (f0.state != "accepted") = false by simp [hacc]]
  rfl

/-- `Takahe.follow` when the `(source, target)` row exists in any state
other than `accepted`: the row's state is reset to `unrequested`. -/
theorem follow_existing_not_accepted {db : DB} {A B fresh : Nat} {f0 : FollowRow}
    (hfil : db.follows.filter (fun f => f.source == A && f.target == B) = [f0])
    (hne : f0.state ≠ "accepted") :
    Takahe.follow db A B fresh = some { db with
      follows := updateFirst (fun g => g.source == A && g.target == B)
        (fun g => { g with state := "unrequested" }) db.follows } := by
  unfold Takahe.follow
  rw [hfil]
  dsimp only
  rw [show (f0.state != "accepted") = true by simp [hne]]
  rfl

/-- `Takahe.follow` when no row exists and the source identity does: a
fresh row is created in state `unrequested` with `boosts=True`. -/
theorem follow_absent_creates {db : DB} {A B fresh : Nat} {src : IdentityRow}
    (hfil : db.follows.filter (fun f => f.source == A && f.target == B) = [])
    (hid : db.identities.find? (fun i => i.pk == A) = some src) :
    Takahe.follow db A B fresh = some { db with
      follows := db.follows ++
        [⟨fresh, A, B, true, src.actor_uri ++ "follow/" ++ toString fresh ++ "/",
          "unrequested"⟩] } := by
  unfold Takahe.follow
  rw [hfil, hid]

/-- `Takahe.follow` when no row exists and the source identity is missing:
`Identity.DoesNotExist` propagates with nothing written. -/
theorem follow_absent_no_identity {db : DB} {A B fresh : Nat}
    (hfil : db.follows.filter (fun f => f.source == A && f.target == B) = [])
    (hid : db.identities.find? (fun i => i.pk == A) = none) :
    Takahe.follow db A B fresh = none := by
  unfold Takahe.follow
  rw [hfil, hid]

/-- One `follow` call keeps the `(source, target)` row count at most 1. -/
theorem follow_step_count {db : DB} {A B : Nat} (fresh : Nat)
    (h : (db.follows.filter (fun f => f.source == A && f.target == B)).length ≤ 1) :
    (((Takahe.follow db A B fresh).getD db).follows.filter
      (fun f => f.source == A && f.target == B)).length ≤ 1 := by
  match hfil : db.follows.filter (fun f => f.source == A && f.target == B) with
  | [] =>
    cases hid : db.identities.find? (fun i => i.pk == A) with
    | none =>
      rw [follow_absent_no_identity hfil hid]
      simp [hfil]
    | some src =>
      rw [follow_absent_creates hfil hid]
      simp [List.filter_append, hfil, List.filter_cons]
  | [f0] =>
    by_cases hacc : f0.state = "accepted"
    · rw [follow_existing_accepted hfil hacc]
      simp [hfil]
    · rw [follow_existing_not_accepted hfil hacc]
      have hmem : f0 ∈ db.follows.filter (fun f => f.source == A && f.target == B) := by
        rw [hfil]; exact List.mem_singleton.mpr rfl
      have hpred : (f0.source == A && f0.target == B) = true := (List.mem_filter.mp hmem).2
      have := filter_updateFirst_single (f := fun g => { g with state := "unrequested" })
        hfil hpred
      simp [this]
  | f1 :: f2 :: tl =>
    rw [hfil] at h
    simp at h

/-- Unfolding of `followSeq` one call at a time. -/
theorem followSeq_cons (db : DB) (A B pk : Nat) (pks : List Nat) :
    followSeq db A B (pk :: pks) = followSeq ((Takahe.follow db A B pk).getD db) A B pks := rfl

/-- Any sequence of `follow(A, B)` calls keeps the row count at most 1. -/
theorem followSeq_count (A B : Nat) : ∀ (pks : List Nat) (db : DB),
    (db.follows.filter (fun f => f.source == A && f.target == B)).length ≤ 1 →
    ((followSeq db A B pks).follows.filter
      (fun f => f.source == A && f.target == B)).length ≤ 1
  | [], _, h => h
  | pk :: pks, db, h => by
    rw [followSeq_cons]
    exact followSeq_count A B pks _ (follow_step_count pk h)

/-! ## C6 — follow row uniqueness and idempotence -/

/-- C6: starting from a store with at most one Follow row for the ordered
pair `(A, B)` (the unique constraint), every sequence of
`Takahe.follow(A, B)` calls leaves at most one such row; and a call that
finds an existing row creates no new row (the table keeps its length),
leaves the row untouched when its state is `accepted`, and otherwise —
in particular when it was `undone` — resets exactly that row to
`unrequested`, preserving its pk and its `boosts` preference. -/
theorem c6_follow_idempotent_unique (db : DB) (A B : Nat)
    (huniq : (db.follows.filter (fun f => f.source == A && f.target == B)).length ≤ 1) :
    (∀ pks : List Nat,
      ((followSeq db A B pks).follows.filter
        (fun f => f.source == A && f.target == B)).length ≤ 1) ∧
    (∀ f0 fresh, db.follows.filter (fun f => f.source == A && f.target == B) = [f0] →
      ∃ db', Takahe.follow db A B fresh = some db' ∧
        db'.follows.length = db.follows.length ∧
        (f0.state = "accepted" → db' = db) ∧
        (f0.state ≠ "accepted" →
          db'.follows.filter (fun f => f.source == A && f.target == B) =
            [{ f0 with state := "unrequested" }])) := by
  refine ⟨fun pks => followSeq_count A B pks db huniq, ?_⟩
  intro f0 fresh hfil
  have hmem : f0 ∈ db.follows.filter (fun f => f.source == A && f.target == B) := by
    rw [hfil]; exact List.mem_singleton.mpr rfl
  have hpred : (f0.source == A && f0.target == B) = true := (List.mem_filter.mp hmem).2
  by_cases hacc : f0.state = "accepted"
  · exact ⟨db, follow_existing_accepted hfil hacc, rfl, fun _ => rfl,
      fun hne => absurd hacc hne⟩
  · refine ⟨_, follow_existing_not_accepted hfil hacc, ?_, ?_, ?_⟩
    · exact length_updateFirst _ _ _
    · intro h; exact absurd h hacc
    · intro _
      exact filter_updateFirst_single hfil hpred

/-- Witness for C6: two follow calls on the store already holding the
accepted follow 10 → 20 keep a single row, and a call there leaves the
store unchanged. -/
theorem c6_follow_idempotent_unique_witness :
    ((followSeq dbAcceptedFollow 10 20 [5, 6]).follows.filter
      (fun f => f.source == 10 && f.target == 20)).length ≤ 1 ∧
    (∃ db', Takahe.follow dbAcceptedFollow 10 20 5 = some db' ∧
      db'.follows.length = dbAcceptedFollow.follows.length ∧
      ((⟨1, 10, 20, true, "", "accepted"⟩ : FollowRow).state = "accepted" →
        db' = dbAcceptedFollow) ∧
      ((⟨1, 10, 20, true, "", "accepted"⟩ : FollowRow).state ≠ "accepted" →
        db'.follows.filter (fun f => f.source == 10 && f.target == 20) =
          [{ (⟨1, 10, 20, true, "", "accepted"⟩ : FollowRow) with
              state := "unrequested" }])) := by
  have h := c6_follow_idempotent_unique dbAcceptedFollow 10 20 (by decide)
  exact ⟨h.1 [5, 6], h.2 ⟨1, 10, 20, true, "", "accepted"⟩ 5 (by decide)⟩


/-! ## Shared facts about `update_follow_state` and `block_or_mute` -/

/-- `update_follow_state` never touches the Block table. -/
theorem update_follow_state_blocks (db : DB) (s t : Nat) (fs : List String) (to_state : String) :
    (Takahe.update_follow_state db s t fs to_state).blocks = db.blocks := by
  unfold Takahe.update_follow_state
  cases db.follows.find? (fun f => f.source == s && f.target == t) with
  | none => rfl
  | some f => dsimp only; split <;> rfl

/-- The Follow table after `update_follow_state` is either untouched or the
first matching row's state is replaced. -/
theorem update_follow_state_follows (db : DB) (s t : Nat) (fs : List String) (to_state : String) :
    (Takahe.update_follow_state db s t fs to_state).follows = db.follows ∨
    (Takahe.update_follow_state db s t fs to_state).follows =
      updateFirst (fun f => f.source == s && f.target == t)
        (fun f => { f with state := to_state }) db.follows := by
  unfold Takahe.update_follow_state
  cases db.follows.find? (fun f => f.source == s && f.target == t) with
  | none => exact Or.inl rfl
  | some f =>
    dsimp only
    split
    · exact Or.inr rfl
    · exact Or.inl rfl

/-- After an any-state `update_follow_state` to_state `to_state` on a table with at most
one matching row, every matching row has state `to_state`. -/
theorem update_follow_state_all_to {db : DB} {s t : Nat} {to_state : String}
    (huniq : (db.follows.filter (fun f => f.source == s && f.target == t)).length ≤ 1) :
    ∀ g ∈ (Takahe.update_follow_state db s t [] to_state).follows,
      g.source = s → g.target = t → g.state = to_state := by
  intro g hg hgs hgt
  have hpredg : (g.source == s && g.target == t) = true := by simp [hgs, hgt]
  cases hfind : db.follows.find? (fun f => f.source == s && f.target == t) with
  | none =>
    have hunch : Takahe.update_follow_state db s t [] to_state = db := by
      unfold Takahe.update_follow_state
      rw [hfind]
    rw [hunch] at hg
    have := List.find?_eq_none.mp hfind g hg
    rw [hpredg] at this
    cases this rfl
  | some f0 =>
    have hf0mem := List.mem_of_find?_eq_some hfind
    have hf0pred := List.find?_some hfind
    have hfil : db.follows.filter (fun f => f.source == s && f.target == t) = [f0] :=
      filter_single_of_mem hf0mem hf0pred huniq
    by_cases hto : f0.state = to_state
    · have hunch : Takahe.update_follow_state db s t [] to_state = db := by
        unfold Takahe.update_follow_state
        rw [hfind]
        dsimp only
        rw [if_neg]
        simp [hto]
      rw [hunch] at hg
      have : g ∈ db.follows.filter (fun f => f.source == s && f.target == t) :=
        List.mem_filter.mpr ⟨hg, hpredg⟩
      rw [hfil] at this
      obtain rfl : g = f0 := by simpa using this
      exact hto
    · have happ : Takahe.update_follow_state db s t [] to_state = { db with
          follows := updateFirst (fun f => f.source == s && f.target == t)
            (fun f => { f with state := to_state }) db.follows } := by
        unfold Takahe.update_follow_state
        rw [hfind]
        dsimp only
        rw [if_pos]
        simp [hto]
      rw [happ] at hg
      have hfil' : (updateFirst (fun f => f.source == s && f.target == t)
          (fun f => { f with state := to_state }) db.follows).filter
            (fun f => f.source == s && f.target == t) = [{ f0 with state := to_state }] :=
        filter_updateFirst_single hfil hf0pred
      have : g ∈ (updateFirst (fun f => f.source == s && f.target == t)
          (fun f => { f with state := to_state }) db.follows).filter
            (fun f => f.source == s && f.target == t) :=
        List.mem_filter.mpr ⟨hg, hpredg⟩
      rw [hfil'] at this
      obtain rfl : g = { f0 with state := to_state } := by simpa using this
      rfl

/-- Rows not matching the `(source, target)` pair survive
`update_follow_state` unchanged. -/
theorem update_follow_state_mem_preserved {db : DB} {s t : Nat} {fs : List String}
    {to_state : String} {g : FollowRow} (hg : g ∈ db.follows)
    (hpred : (g.source == s && g.target == t) = false) :
    g ∈ (Takahe.update_follow_state db s t fs to_state).follows := by
  rcases update_follow_state_follows db s t fs to_state with h | h <;> rw [h]
  · exact hg
  · exact mem_updateFirst_of_not _ hg hpred

/-- When the matching row exists and its state differs, the transition is
applied to_state the first matching row. -/
theorem update_follow_state_applies {db : DB} {s t : Nat} {to_state : String} {f0 : FollowRow}
    (hfind : db.follows.find? (fun f => f.source == s && f.target == t) = some f0)
    (hne : f0.state ≠ to_state) :
    Takahe.update_follow_state db s t [] to_state = { db with
      follows := updateFirst (fun f => f.source == s && f.target == t)
        (fun f => { f with state := to_state }) db.follows } := by
  unfold Takahe.update_follow_state
  rw [hfind]
  dsimp only
  rw [if_pos]
  simp [hne]

/-- The two-sided follow teardown performed by a full block: after
`unfollow(A → B)` then `reject(B → A)`, every `A → B` row is `undone`, every
previously pending `B → A` row is `rejecting` (same pk), and the Block
table is untouched. -/
theorem follows_teardown (dbX : DB) (A B : Nat) (hne : A ≠ B)
    (hfAB : (dbX.follows.filter (fun f => f.source == A && f.target == B)).length ≤ 1)
    (hfBA : (dbX.follows.filter (fun f => f.source == B && f.target == A)).length ≤ 1) :
    (∀ f ∈ (Takahe.reject_follow_request (Takahe.unfollow dbX A B) B A).follows,
      f.source = A → f.target = B → f.state = "undone") ∧
    (∀ f ∈ dbX.follows, f.source = B → f.target = A → f.state = "pending_approval" →
      ∃ f', f' ∈ (Takahe.reject_follow_request (Takahe.unfollow dbX A B) B A).follows ∧
        f'.pk = f.pk ∧ f'.state = "rejecting") ∧
    (Takahe.reject_follow_request (Takahe.unfollow dbX A B) B A).blocks = dbX.blocks := by
  have hBA_ne : ((A : Nat) == B) = false := by
    simp [hne]
  refine ⟨?_, ?_, ?_⟩
  · -- every A → B row ends up undone
    intro f hf hfs hft
    rcases update_follow_state_follows (Takahe.unfollow dbX A B) B A [] "rejecting"
      with h | h
    · rw [Takahe.reject_follow_request, h] at hf
      exact update_follow_state_all_to hfAB f hf hfs hft
    · rw [Takahe.reject_follow_request, h] at hf
      rcases mem_updateFirst hf with hf' | ⟨y, hy, hpy, rfl⟩
      · exact update_follow_state_all_to hfAB f hf' hfs hft
      · simp only [Bool.and_eq_true, beq_iff_eq] at hpy
        exact absurd (hfs.symm.trans hpy.1) hne
  · -- every pending B → A row ends up rejecting
    intro f hf hfs hft hpend
    have hpredAB : (f.source == A && f.target == B) = false := by
      have : (f.source == A) = false := by
        rw [hfs]
        exact beq_eq_false_iff_ne.mpr (Ne.symm hne)
      simp [this]
    have hpredBA : (f.source == B && f.target == A) = true := by simp [hfs, hft]
    have hfU : f ∈ (Takahe.unfollow dbX A B).follows :=
      update_follow_state_mem_preserved hf hpredAB
    have hfilX : dbX.follows.filter (fun g => g.source == B && g.target == A) = [f] :=
      filter_single_of_mem hf hpredBA hfBA
    have hfilU : (Takahe.unfollow dbX A B).follows.filter
        (fun g => g.source == B && g.target == A) = [f] := by
      rcases update_follow_state_follows dbX A B [] "undone" with h | h
      · rw [Takahe.unfollow, h]
        exact hfilX
      · rw [Takahe.unfollow, h]
        rw [filter_updateFirst_of_disjoint, hfilX]
        intro x _ hx
        simp only [Bool.and_eq_true, beq_iff_eq] at hx
        constructor
        · simp [hx.1, beq_eq_false_iff_ne.mpr hne]
        · simp [hx.1, beq_eq_false_iff_ne.mpr hne]
    have hfindU : (Takahe.unfollow dbX A B).follows.find?
        (fun g => g.source == B && g.target == A) = some f :=
      find?_of_filter_single hfilU
    have happ := update_follow_state_applies hfindU
      (show f.state ≠ "rejecting" by rw [hpend]; decide)
    have hfil' : (Takahe.reject_follow_request (Takahe.unfollow dbX A B) B A).follows.filter
        (fun g => g.source == B && g.target == A) = [{ f with state := "rejecting" }] := by
      rw [Takahe.reject_follow_request, happ]
      exact filter_updateFirst_single hfilU hpredBA
    refine ⟨{ f with state := "rejecting" }, ?_, rfl, rfl⟩
    have : { f with state := "rejecting" } ∈
        (Takahe.reject_follow_request (Takahe.unfollow dbX A B) B A).follows.filter
          (fun g => g.source == B && g.target == A) := by
      rw [hfil']
      exact List.mem_singleton.mpr rfl
    exact List.mem_of_mem_filter this
  · rw [Takahe.reject_follow_request, update_follow_state_blocks, Takahe.unfollow,
      update_follow_state_blocks]

/-- `block_or_mute(mute=False)` when no `(A, B, False)` Block row exists:
a fresh row is created in state `new` with its uri stamped, then the follow
teardown runs. -/
theorem block_or_mute_absent {db : DB} {A B fresh : Nat} {src : IdentityRow}
    (hsrc : db.identities.find? (fun i => i.pk == A) = some src)
    (hlocal : src.is_local = true)
    (hfil : db.blocks.filter (fun b =>
      b.source == A && b.target == B && b.mute == false) = []) :
    Takahe.block_or_mute db A B false fresh =
      some (Takahe.reject_follow_request (Takahe.unfollow { db with
        blocks := db.blocks ++
          [⟨fresh, A, B, false, "new",
            src.actor_uri ++ "block/" ++ toString fresh ++ "/"⟩] } A B) B A) := by
  unfold Takahe.block_or_mute
  rw [hsrc]
  dsimp only
  rw [hlocal, hfil]
  exact rfl

/-- `block_or_mute(mute=False)` when one `(A, B, False)` Block row exists:
that row is reset to state `new` (its uri stamped if empty), then the
follow teardown runs. -/
theorem block_or_mute_existing {db : DB} {A B fresh : Nat} {src : IdentityRow}
    {b0 : BlockRow}
    (hsrc : db.identities.find? (fun i => i.pk == A) = some src)
    (hlocal : src.is_local = true)
    (hfil : db.blocks.filter (fun b =>
      b.source == A && b.target == B && b.mute == false) = [b0]) :
    ∃ nb : BlockRow, nb.source = b0.source ∧ nb.target = b0.target ∧
      nb.mute = b0.mute ∧ nb.state = "new" ∧
      Takahe.block_or_mute db A B false fresh =
        some (Takahe.reject_follow_request (Takahe.unfollow { db with
          blocks := updateFirst (fun c =>
              c.source == A && c.target == B && c.mute == false)
            (fun _ => nb) db.blocks } A B) B A) := by
  by_cases huri : (b0.uri == "") = true
  · refine ⟨{ b0 with state := "new", uri := src.actor_uri ++ "block/" ++ toString b0.pk ++ "/" }, rfl, rfl, rfl, rfl, ?_⟩
    unfold Takahe.block_or_mute
    rw [hsrc]
    dsimp only
    rw [hlocal, hfil]
    dsimp only
    rw [huri]
    exact rfl
  · refine ⟨{ b0 with state := "new" }, rfl, rfl, rfl, rfl, ?_⟩
    unfold Takahe.block_or_mute
    rw [hsrc]
    dsimp only
    rw [hlocal, hfil]
    dsimp only
    rw [show (b0.uri == "") = false by simpa using huri]
    exact rfl

/-- The Block-table half of a full block: afterwards exactly one matching
row, in state `new`, and the Follow table untouched so far. -/
theorem block_update_blocks {db : DB} {A B : Nat} (fresh : Nat) {src : IdentityRow}
    (hsrc : db.identities.find? (fun i => i.pk == A) = some src)
    (hlocal : src.is_local = true)
    (hblk : (db.blocks.filter (fun b =>
      b.source == A && b.target == B && b.mute == false)).length ≤ 1) :
    ∃ db1 nb, nb.state = "new" ∧ db1.follows = db.follows ∧
      db1.blocks.filter (fun b =>
        b.source == A && b.target == B && b.mute == false) = [nb] ∧
      Takahe.block_or_mute db A B false fresh =
        some (Takahe.reject_follow_request (Takahe.unfollow db1 A B) B A) := by
  match hfil : db.blocks.filter (fun b =>
      b.source == A && b.target == B && b.mute == false) with
  | [] =>
    refine ⟨{ db with blocks := db.blocks ++
        [⟨fresh, A, B, false, "new",
          src.actor_uri ++ "block/" ++ toString fresh ++ "/"⟩] },
      ⟨fresh, A, B, false, "new", src.actor_uri ++ "block/" ++ toString fresh ++ "/"⟩,
      rfl, rfl, ?_, block_or_mute_absent hsrc hlocal hfil⟩
    rw [List.filter_append, hfil]
    simp [List.filter_cons]
  | [b0] =>
    obtain ⟨nb, hs, ht, hm, hstate, heq⟩ := block_or_mute_existing hsrc hlocal hfil
    have hb0mem : b0 ∈ db.blocks.filter (fun b =>
        b.source == A && b.target == B && b.mute == false) := by
      rw [hfil]; exact List.mem_singleton.mpr rfl
    have hb0pred := (List.mem_filter.mp hb0mem).2
    have hnbpred : (nb.source == A && nb.target == B && nb.mute == false) = true := by
      rw [hs, ht, hm]
      exact hb0pred
    refine ⟨{ db with blocks := updateFirst (fun c =>
        c.source == A && c.target == B && c.mute == false) (fun _ => nb) db.blocks },
      nb, hstate, rfl, ?_, heq⟩
    exact filter_updateFirst_single hfil hnbpred
  | b1 :: b2 :: tl =>
    rw [hfil] at hblk
    simp at hblk

/-! ## C2 — full block with follow teardown -/

/-- C2 counterexample: the claim quantifies over every local identity `A`
and identity `B`, with no distinctness condition.  At `A = B = 1`, with a
pre-existing accepted 1 → 1 Follow row, `block_or_mute(1, 1, False)` first
sets that row to `undone` (the unfollow of the source → target direction)
and then — because `reject_follow_request(target, source)` names the same
ordered pair — moves the very same row from `undone` to `rejecting` via the
any-state transition.  The claimed terminal state `undone` for the
pre-existing A → B row does not hold. -/
theorem c2_counterexample_self_block :
    (Takahe.block_or_mute dbSelfFollow 1 1 false 99).map
      (fun db' => db'.follows.map (fun f => f.state)) = some ["rejecting"] ∧
    some ["rejecting"] ≠ some ["undone"] := by
  refine ⟨by decide, by decide⟩

/-- C2 (amended): a full block from a local identity `A` to a *distinct*
identity `B`, on a store satisfying the unique constraints (at most one
`(A, B, False)` Block row, at most one Follow row per ordered pair),
leaves in one transition: exactly one `(A, B, mute=False)` Block row,
every such row in state `new`; every `A → B` Follow row in the terminal
negative state `undone`; and every `B → A` Follow row that was
`pending_approval` now `rejecting` (same pk).  The embedding performs the
whole call as one pure store-to-store function, matching the single
transaction boundary.  The original claim, quantified over every pair,
fails at `A = B`, where the unfollow and the reject hit the same row
(`c2_counterexample_self_block`). -/
theorem c2_block_teardown (db : DB) (A B fresh : Nat) (src : IdentityRow)
    (hsrc : db.identities.find? (fun i => i.pk == A) = some src)
    (hlocal : src.is_local = true)
    (hne : A ≠ B)
    (hblk : (db.blocks.filter (fun b =>
      b.source == A && b.target == B && b.mute == false)).length ≤ 1)
    (hfAB : (db.follows.filter (fun f => f.source == A && f.target == B)).length ≤ 1)
    (hfBA : (db.follows.filter (fun f => f.source == B && f.target == A)).length ≤ 1) :
    ∃ db', Takahe.block_or_mute db A B false fresh = some db' ∧
      (db'.blocks.filter (fun b =>
        b.source == A && b.target == B && b.mute == false)).length = 1 ∧
      (∀ b ∈ db'.blocks, b.source = A → b.target = B → b.mute = false →
        b.state = "new") ∧
      (∀ f ∈ db'.follows, f.source = A → f.target = B → f.state = "undone") ∧
      (∀ f ∈ db.follows, f.source = B → f.target = A → f.state = "pending_approval" →
        ∃ f', f' ∈ db'.follows ∧ f'.pk = f.pk ∧ f'.state = "rejecting") := by
  obtain ⟨db1, nb, hstate, hfollows1, hfil1, heq⟩ :=
    block_update_blocks fresh hsrc hlocal hblk
  have hfAB1 : (db1.follows.filter (fun f => f.source == A && f.target == B)).length ≤ 1 := by
    rw [hfollows1]; exact hfAB
  have hfBA1 : (db1.follows.filter (fun f => f.source == B && f.target == A)).length ≤ 1 := by
    rw [hfollows1]; exact hfBA
  obtain ⟨htear1, htear2, hblocks⟩ := follows_teardown db1 A B hne hfAB1 hfBA1
  refine ⟨_, heq, ?_, ?_, htear1, ?_⟩
  · rw [hblocks, hfil1]
    rfl
  · intro b hb hbs hbt hbm
    rw [hblocks] at hb
    have hbpred : (b.source == A && b.target == B && b.mute == false) = true := by
      simp [hbs, hbt, hbm]
    have : b ∈ db1.blocks.filter (fun c =>
        c.source == A && c.target == B && c.mute == false) :=
      List.mem_filter.mpr ⟨hb, hbpred⟩
    rw [hfil1] at this
    obtain rfl : b = nb := by simpa using this
    exact hstate
  · intro f hf hfs hft hpend
    rw [← hfollows1] at hf
    exact htear2 f hf hfs hft hpend

/-- Witness for C2: blocking identity 2 from the local identity 1 on the
concrete store tears down the accepted 1 → 2 follow and the pending 2 → 1
request as stated. -/
theorem c2_block_teardown_witness :
    ∃ db', Takahe.block_or_mute dbLocalSource 1 2 false 99 = some db' ∧
      (db'.blocks.filter (fun b =>
        b.source == 1 && b.target == 2 && b.mute == false)).length = 1 ∧
      (∀ b ∈ db'.blocks, b.source = 1 → b.target = 2 → b.mute = false →
        b.state = "new") ∧
      (∀ f ∈ db'.follows, f.source = 1 → f.target = 2 → f.state = "undone") ∧
      (∀ f ∈ dbLocalSource.follows, f.source = 2 → f.target = 1 →
        f.state = "pending_approval" →
        ∃ f', f' ∈ db'.follows ∧ f'.pk = f.pk ∧ f'.state = "rejecting") :=
  c2_block_teardown dbLocalSource 1 2 99
    ⟨1, "https://l.example/@a/", "a", some "l.example", true⟩
    rfl rfl (by decide) (by decide) (by decide) (by decide)


/-! ## C7 — resolver canonicalization -/

/-- C7 counterexample: when the `domain` argument is a pre-fetched Domain
record, the source keeps that record as `domain_instance` and binds the
created Identity to it, not to the canonical webfinger subject's domain.
Resolving `alice` against the supplied Domain record `a.example` with a
webfinger subject `alice@b.example` creates an identity whose domain is
`a.example`, while the claim requires the subject's `b.example`. -/
theorem c7_counterexample_domain_instance :
    (by_username_and_domain dbRemoteDomain "alice"
        (.record ⟨"a.example", false⟩) true false
        (some ("https://b.example/u/alice", "alice@b.example")) 99).bind
      (fun r => r.2.map (fun i => i.domain)) = some (some "a.example") ∧
    pySplit "alice@b.example" '@' = ["alice", "b.example"] ∧
    some (some "a.example") ≠ some (some "b.example") := by
  refine ⟨by decide, by decide, by decide⟩

/-- C7 (amended): for a lookup whose `domain` argument is a plain string,
that finds no existing `(username, domain)` identity and whose webfinger
discovery yields an actor URI and a canonical handle `hu@hd`: if an
Identity with that exact actor URI exists it is returned with the store
unchanged; otherwise the created remote Identity carries the canonical
subject's username and (lowercased) domain, not the supplied ones.  When a
pre-fetched Domain record is supplied instead, the created identity keeps
that record's domain (`c7_counterexample_domain_instance`). -/
theorem c7_by_username_and_domain_canonicalizes
    (db : DB) (username dstr uri handle hu hd : String) (fresh_pk : Nat)
    (hat : startsWithAt username = false)
    (hsplit : pySplit handle '@' = [hu, hd])
    (hmiss : ∀ i ∈ db.identities,
      ¬(pyLower i.username = pyLower username ∧ i.domain = some (pyLower dstr))) :
    (∀ idt, db.identities.find? (fun i => i.actor_uri == uri) = some idt →
      by_username_and_domain db username (.name dstr) true false
        (some (uri, handle)) fresh_pk = some (db, some idt)) ∧
    (db.identities.find? (fun i => i.actor_uri == uri) = none →
     (∀ d ∈ db.domains, d.domain = pyLower hd → d.is_local = false) →
     ∃ db' idt, by_username_and_domain db username (.name dstr) true false
         (some (uri, handle)) fresh_pk = some (db', some idt) ∧
       idt.username = hu ∧ idt.domain = some (pyLower hd) ∧ idt.is_local = false ∧
       idt.actor_uri = uri) := by
  constructor
  · intro idt hfound
    unfold by_username_and_domain
    rw [if_neg (by simp [hat])]
    dsimp only
    split
    · next x y tl heq =>
      have hx : x ∈ x :: y :: tl := List.mem_cons_self _ _
      rw [← heq] at hx
      have := List.mem_filter.mp hx
      simp only [Bool.and_eq_true, beq_iff_eq] at this
      exact absurd ⟨this.2.1.1, this.2.1.2⟩ (hmiss x this.1)
    · next i heq =>
      have hx : i ∈ [i] := List.mem_singleton.mpr rfl
      rw [← heq] at hx
      have := List.mem_filter.mp hx
      simp only [Bool.and_eq_true, beq_iff_eq] at this
      exact absurd ⟨this.2.1.1, this.2.1.2⟩ (hmiss i this.1)
    · rw [hfound]
      exact rfl
  · intro hnotfound hdl
    unfold by_username_and_domain
    rw [if_neg (by simp [hat])]
    dsimp only
    split
    · next x y tl heq =>
      have hx : x ∈ x :: y :: tl := List.mem_cons_self _ _
      rw [← heq] at hx
      have := List.mem_filter.mp hx
      simp only [Bool.and_eq_true, beq_iff_eq] at this
      exact absurd ⟨this.2.1.1, this.2.1.2⟩ (hmiss x this.1)
    · next i heq =>
      have hx : i ∈ [i] := List.mem_singleton.mpr rfl
      rw [← heq] at hx
      have := List.mem_filter.mp hx
      simp only [Bool.and_eq_true, beq_iff_eq] at this
      exact absurd ⟨this.2.1.1, this.2.1.2⟩ (hmiss i this.1)
    · rw [hnotfound, hsplit]
      dsimp only
      unfold get_remote_domain
      cases hfind2 : db.domains.find? (fun d => d.domain == pyLower hd && !d.is_local) with
      | some d =>
        have hdpred := List.find?_some hfind2
        simp only [Bool.and_eq_true, beq_iff_eq] at hdpred
        refine ⟨_, _, rfl, rfl, ?_, rfl, rfl⟩
        rw [hdpred.1]
      | none =>
        have hany : db.domains.any (fun d => d.domain == pyLower hd) = false := by
          rw [List.any_eq_false]
          intro d hdmem hcon
          have hdeq : d.domain = pyLower hd := by simpa using hcon
          have hloc := hdl d hdmem hdeq
          have := List.find?_eq_none.mp hfind2 d hdmem
          rw [hdeq, hloc] at this
          simp at this
        rw [hany]
        dsimp only
        exact ⟨_, _, rfl, rfl, rfl, rfl, rfl⟩

/-- Witness for C7: resolving `alice` with supplied domain string
`x.example` and webfinger subject `alice@b.example` creates the identity
under `b.example`. -/
theorem c7_by_username_and_domain_canonicalizes_witness :
    ∃ db' idt, by_username_and_domain dbRemoteDomain "alice" (.name "x.example") true false
        (some ("https://b.example/u/alice", "alice@b.example")) 99 = some (db', some idt) ∧
      idt.username = "alice" ∧ idt.domain = some (pyLower "b.example") ∧
      idt.is_local = false ∧ idt.actor_uri = "https://b.example/u/alice" :=
  (c7_by_username_and_domain_canonicalizes dbRemoteDomain "alice" "x.example"
    "https://b.example/u/alice" "alice@b.example" "alice" "b.example" 99
    (by decide) (by decide) (by decide)).2 rfl (by decide)


end NeodbTakahe
